import Mathlib

/-!
Shallow embedding of the GitLFSflare request pipeline: token extraction
(`services/auth.ts`), admission control (`lib/validation.ts`), permission
resolution with caching (`services/cache.ts`, `services/github.ts`), batch
validation and per-object processing (`services/lfs.ts`), and the HTTP
handler (`src/app.ts`).  Strings are handled through their character lists
so that every definition evaluates by `decide`.  External collaborators
(base64 decoding, SHA-256 hashing, the GitHub fetch, the R2 store and the
URL signer) are abstract capabilities bundled in `Backend`.
-/

namespace GitLFSflare

/-! ## lib/validation.ts -/

/-- Characters accepted by `OID_REGEX = /^[0-9a-f]{64}$/`. -/
def isLowerHexChar (c : Char) : Bool :=
  c.isDigit || ('a' ≤ c && c ≤ 'f')

/-- `isValidOID`: the oid must match `/^[0-9a-f]{64}$/`. -/
def isValidOID (oid : String) : Bool :=
  oid.data.length == 64 && oid.data.all isLowerHexChar

/-- `isValidSize`: `Number.isInteger(size) && size >= 0`; integrality is
built into the `Int` model of JS numbers. -/
def isValidSize (size : Int) : Bool :=
  decide (0 ≤ size)

/-- Characters matched by `ORG_NAME_REGEX = /^[a-zA-Z0-9_-]+$/`. -/
def isOrgChar (c : Char) : Bool :=
  c.isAlphanum || c == '_' || c == '-'

/-- `ORG_NAME_REGEX.test org`: nonempty and all characters in class. -/
def orgNameMatches (org : List Char) : Bool :=
  !org.isEmpty && org.all isOrgChar

/-- Characters matched by `REPO_NAME_REGEX = /^[a-zA-Z0-9_.-]+$/`. -/
def isRepoChar (c : Char) : Bool :=
  c.isAlphanum || c == '_' || c == '.' || c == '-'

/-- `REPO_NAME_REGEX.test repo`. -/
def repoNameMatches (repo : List Char) : Bool :=
  !repo.isEmpty && repo.all isRepoChar

/-- `allowedOrgs.split(",")` on character lists. -/
def splitComma : List Char → List (List Char)
  | [] => [[]]
  | c :: rest =>
    match splitComma rest with
    | [] => [[c]]
    | g :: gs => if c = ',' then [] :: g :: gs else (c :: g) :: gs

/-- JS whitespace trimmed by `String.prototype.trim` (ASCII part). -/
def isTrimChar (c : Char) : Bool :=
  c == ' ' || c == '\t' || c == '\n' || c == '\r'

/-- `org.trim()` on character lists. -/
def trimChars (l : List Char) : List Char :=
  ((l.dropWhile isTrimChar).reverse.dropWhile isTrimChar).reverse

/-- `parseAllowedOrgs`: split on comma, trim, drop empties. -/
def parseAllowedOrgs (allowedOrgs : String) : List (List Char) :=
  ((splitComma allowedOrgs.data).map trimChars).filter (fun org => !org.isEmpty)

/-- Worker environment bindings used by the pipeline. -/
structure Env where
  ALLOWED_ORGS : String
  URL_EXPIRY : Int
  AUTH_CACHE_TTL : Nat
deriving DecidableEq

def MAX_ORG_LENGTH : Nat := 255

def MAX_REPO_LENGTH : Nat := 100

/-- `validateOrganization`: format (pattern + length) then exact membership
in the configured allow-list. -/
def validateOrganization (env : Env) (org : String) : Bool :=
  if org.data = [] ∨ MAX_ORG_LENGTH < org.data.length then false
  else if !orgNameMatches org.data then false
  else (parseAllowedOrgs env.ALLOWED_ORGS).contains org.data

/-- `validateRepoName`: pattern, length and leading-period rule. -/
def validateRepoName (repo : String) : Bool :=
  if repo.data = [] ∨ MAX_REPO_LENGTH < repo.data.length then false
  else if !repoNameMatches repo.data then false
  else match repo.data with
    | '.' :: _ => false
    | _ => true

/-! ## services/auth.ts -/

def VALID_PREFIXES : List (List Char) :=
  ["ghp_".data, "github_pat_".data, "ghs_".data]

def MAX_TOKEN_LENGTH : Nat := 1000

/-- Characters matched by `TOKEN_CHAR_REGEX = /^[a-zA-Z0-9_]+$/`. -/
def isTokenChar (c : Char) : Bool :=
  c.isAlphanum || c == '_'

structure ParsedAuth where
  type : String
  token : String
deriving DecidableEq

/-- `decoded.indexOf(":")` followed by `decoded.slice(colonIndex + 1)`:
`none` when there is no colon, otherwise everything after the first one. -/
def afterFirstColon : List Char → Option (List Char)
  | [] => none
  | c :: rest => if c = ':' then some rest else afterFirstColon rest

/-- `parseAuthHeader`; `decodeBase64` is the ambient `atob`, returning
`none` where `atob` throws. -/
def parseAuthHeader (decodeBase64 : String → Option String)
    (header : Option String) : Option ParsedAuth :=
  match header with
  | none => none
  | some h =>
    if h.data.isEmpty then none
    else
      let lower := h.data.map Char.toLower
      if ("bearer ".data).isPrefixOf lower then
        let token := h.data.drop 7
        if token.isEmpty then none else some ⟨"bearer", String.mk token⟩
      else if ("basic ".data).isPrefixOf lower then
        let encoded := h.data.drop 6
        if encoded.isEmpty then none
        else
          match decodeBase64 (String.mk encoded) with
          | none => none
          | some decoded =>
            match afterFirstColon decoded.data with
            | none => none
            | some tokenChars => some ⟨"basic", String.mk tokenChars⟩
      else none

/-- `validateTokenFormat`: length bound, recognized prefix, nonempty
remainder restricted to `TOKEN_CHAR_REGEX`. -/
def validateTokenFormat (token : String) : Bool :=
  if token.data = [] ∨ MAX_TOKEN_LENGTH < token.data.length then false
  else
    match VALID_PREFIXES.find? (fun p => p.isPrefixOf token.data) with
    | none => false
    | some p =>
      let rest := token.data.drop p.length
      if rest.isEmpty then false else rest.all isTokenChar

/-- `extractToken`: parse the authorization header, then shape-validate. -/
def extractToken (decodeBase64 : String → Option String)
    (authHeader : Option String) : Option String :=
  match parseAuthHeader decodeBase64 authHeader with
  | none => none
  | some parsed => if validateTokenFormat parsed.token then some parsed.token else none

/-! ## services/github.ts -/

inductive PermissionLevel where
  | none
  | read
  | write
  | admin
deriving DecidableEq

/-- The three raw booleans of the GitHub `permissions` object. -/
structure GitHubPermissions where
  admin : Bool
  push : Bool
  pull : Bool
deriving DecidableEq

/-- The JSON body of a successful `GET /repos/{org}/{repo}`. -/
structure GitHubRepository where
  isPrivate : Bool
  permissions : Option GitHubPermissions
deriving DecidableEq

/-- The observable part of the upstream HTTP response consumed by
`getRepositoryPermission`: the status, the three headers it reads
(`Retry-After` and `X-RateLimit-Reset` already number-parsed, the
`X-RateLimit-Remaining` raw string), and the parsed JSON body (`none`
when `response.json()` would throw). -/
structure OracleResponse where
  status : Nat
  retryAfterHeader : Option Int
  rateLimitRemaining : Option String
  rateLimitReset : Option Int
  body : Option GitHubRepository
deriving DecidableEq

/-- The exceptions `getRepositoryPermission` can throw:
`GitHubRateLimitError` with its optional fields, the
`GitHub API error: <status>` error for 5xx, and a body-parse failure. -/
inductive GitHubFailure where
  | rateLimited (retryAfter : Option Int) (resetAt : Option Int)
  | apiError (status : Nat)
  | jsonError
deriving DecidableEq

/-- `mapGitHubPermissions`: admin, else push, else pull, else none. -/
def mapGitHubPermissions (permissions : GitHubPermissions) : PermissionLevel :=
  if permissions.admin then PermissionLevel.admin
  else if permissions.push then PermissionLevel.write
  else if permissions.pull then PermissionLevel.read
  else PermissionLevel.none

/-- `hasOperationPermission`: download for any level except none; upload
only for write or admin.  The operation is the raw request string. -/
def hasOperationPermission (permission : PermissionLevel) (operation : String) : Bool :=
  if operation = "download" then decide (permission ≠ PermissionLevel.none)
  else decide (permission = PermissionLevel.admin ∨ permission = PermissionLevel.write)

/-- `getRepositoryPermission`, as a function of the upstream response:
429 → rate-limit error with `Retry-After`; 403 with remaining `"0"` →
rate-limit error with reset timestamp, other 403 → none; 404/401 → none;
≥ 500 → `GitHub API error`; otherwise read the body, defaulting a missing
`permissions` field to read for public and none for private repos. -/
def getRepositoryPermission (resp : OracleResponse) :
    Except GitHubFailure PermissionLevel :=
  if resp.status = 429 then
    Except.error (GitHubFailure.rateLimited resp.retryAfterHeader none)
  else if resp.status = 403 then
    if resp.rateLimitRemaining = some "0" then
      Except.error (GitHubFailure.rateLimited none resp.rateLimitReset)
    else Except.ok PermissionLevel.none
  else if resp.status = 404 ∨ resp.status = 401 then Except.ok PermissionLevel.none
  else if 500 ≤ resp.status then Except.error (GitHubFailure.apiError resp.status)
  else
    match resp.body with
    | none => Except.error GitHubFailure.jsonError
    | some data =>
      match data.permissions with
      | none =>
        Except.ok (if data.isPrivate then PermissionLevel.none else PermissionLevel.read)
      | some perms => Except.ok (mapGitHubPermissions perms)

/-! ## services/cache.ts -/

/-- The AUTH_CACHE KV namespace, restricted to the permission values this
core stores; the claims assume get/put behave as a map with unexpired TTL. -/
abbrev PermCache := List (String × PermissionLevel)

/-- `AUTH_CACHE.get key`. -/
def kvGet (cache : PermCache) (key : String) : Option PermissionLevel :=
  match cache.find? (fun e => e.fst == key) with
  | none => none
  | some e => some e.snd

/-- `AUTH_CACHE.put key value` (TTL left to the map assumption). -/
def kvPut (cache : PermCache) (key : String) (value : PermissionLevel) : PermCache :=
  (key, value) :: cache

/-- `generateCacheKey`: `perm:${hash}:${org}/${repo}`, with `hashToken`
the ambient SHA-256 hex digest. -/
def generateCacheKey (hashToken : String → String) (token org repo : String) : String :=
  "perm:" ++ hashToken token ++ ":" ++ org ++ "/" ++ repo

/-- `getCachedPermission`. -/
def getCachedPermission (hashToken : String → String) (cache : PermCache)
    (token org repo : String) : Option PermissionLevel :=
  kvGet cache (generateCacheKey hashToken token org repo)

/-- `setCachedPermission`. -/
def setCachedPermission (hashToken : String → String) (cache : PermCache)
    (token org repo : String) (permission : PermissionLevel) : PermCache :=
  kvPut cache (generateCacheKey hashToken token org repo) permission

/-- `withCache fn`: cached value on hit; on miss call `fn` once, store a
successful result, propagate a thrown failure without storing.  The second
component counts the invocations of `fn`. -/
def withCache (hashToken : String → String)
    (fn : String → String → String → Except GitHubFailure PermissionLevel)
    (token org repo : String) (cache : PermCache) :
    Except GitHubFailure (PermissionLevel × PermCache) × Nat :=
  match getCachedPermission hashToken cache token org repo with
  | some cached => (Except.ok (cached, cache), 0)
  | none =>
    match fn token org repo with
    | Except.error e => (Except.error e, 1)
    | Except.ok permission =>
      (Except.ok (permission, setCachedPermission hashToken cache token org repo permission), 1)

/-! ## services/r2.ts -/

/-- `generateObjectKey`: `${org}/${repo}/${oid.slice(0, 2)}/${oid}`. -/
def generateObjectKey (org repo oid : String) : String :=
  org ++ "/" ++ repo ++ "/" ++ String.mk (oid.data.take 2) ++ "/" ++ oid

inductive R2Method where
  | get
  | put
deriving DecidableEq

/-- The external collaborators of the pipeline: `atob`, SHA-256 hashing,
the GitHub fetch keyed by (token, org, repo), the R2 `head` existence
check keyed by object key (`Except.error` where the store throws,
otherwise the stored size or `none` when absent), the URL signer
(`Except.error` where signing throws), and the current Unix time. -/
structure Backend where
  decodeBase64 : String → Option String
  hashToken : String → String
  oracle : String → String → String → OracleResponse
  r2Head : String → Except Unit (Option Int)
  r2Sign : String → R2Method → Except Unit String
  now : Int

/-! ## services/lfs.ts (the variant with per-check statuses and the
per-object try/catch) -/

structure LFSObjectRequest where
  oid : String
  size : Int
deriving DecidableEq

/-- The decoded batch body.  `operation` stays a raw string (the JSON may
carry anything); `objects` models the array, `transfers` and `hash_algo`
the optional fields. -/
structure LFSBatchRequest where
  operation : String
  transfers : Option (List String)
  objects : List LFSObjectRequest
  hash_algo : Option String
deriving DecidableEq

structure LFSAction where
  href : String
  expires_in : Option Int
deriving DecidableEq

structure LFSActions where
  upload : Option LFSAction
  download : Option LFSAction
deriving DecidableEq

structure LFSObjectError where
  code : Nat
  message : String
deriving DecidableEq

structure LFSObjectResponse where
  oid : String
  size : Int
  authenticated : Option Bool
  actions : Option LFSActions
  error : Option LFSObjectError
deriving DecidableEq

structure LFSBatchResponse where
  transfer : Option String
  objects : List LFSObjectResponse
  hash_algo : Option String
deriving DecidableEq

def MAX_BATCH_OBJECTS : Nat := 100

structure ValidationResult where
  valid : Bool
  error : Option String
  status : Option Nat
deriving DecidableEq

/-- The `for (const obj of request.objects)` loop of `validateBatchRequest`:
first failing object decides, oid before size. -/
def checkObjects : List LFSObjectRequest → Option ValidationResult
  | [] => none
  | obj :: rest =>
    if !isValidOID obj.oid then some ⟨false, some "Invalid OID format", some 422⟩
    else if !isValidSize obj.size then some ⟨false, some "Invalid size", some 422⟩
    else checkObjects rest

/-- The trailing `hash_algo` check of `validateBatchRequest`. -/
def checkHashAlgo (request : LFSBatchRequest) : ValidationResult :=
  match request.hash_algo with
  | some h => if h ≠ "sha256" then ⟨false, some "Only sha256 hash algorithm is supported", some 409⟩
              else ⟨true, none, none⟩
  | none => ⟨true, none, none⟩

/-- `validateBatchRequest`: ordered checks with per-check statuses —
422 for malformed fields, 413 for more than `MAX_BATCH_OBJECTS` objects,
409 for an unsupported hash algorithm. -/
def validateBatchRequest (request : LFSBatchRequest) : ValidationResult :=
  if request.operation ≠ "download" ∧ request.operation ≠ "upload" then
    ⟨false, some "Invalid operation", some 422⟩
  else if request.objects.isEmpty then
    ⟨false, some "Objects array is required and must not be empty", some 422⟩
  else if MAX_BATCH_OBJECTS < request.objects.length then
    ⟨false, some "Batch request contains too many objects", some 413⟩
  else
    match checkObjects request.objects with
    | some bad => bad
    | none =>
      match request.transfers with
      | some ts =>
        if !(ts.contains "basic") then
          ⟨false, some "Only basic transfer adapter is supported", some 422⟩
        else checkHashAlgo request
      | none => checkHashAlgo request

/-- The per-object result produced by the `catch` arm of both processors. -/
def err500Obj (obj : LFSObjectRequest) : LFSObjectResponse :=
  ⟨obj.oid, obj.size, none, none, some ⟨500, "Storage service error"⟩⟩

/-- `processDownloadObject`: existence check, size check, then a signed
download action carrying `env.URL_EXPIRY`; any store or signer throw is
caught into the 500 per-object error. -/
def processDownloadObject (env : Env) (be : Backend) (org repo : String)
    (obj : LFSObjectRequest) : LFSObjectResponse :=
  let key := generateObjectKey org repo obj.oid
  match be.r2Head key with
  | Except.error _ => err500Obj obj
  | Except.ok none => ⟨obj.oid, obj.size, none, none, some ⟨404, "Object not found"⟩⟩
  | Except.ok (some storedSize) =>
    if storedSize ≠ obj.size then
      ⟨obj.oid, obj.size, none, none, some ⟨422, "Object size mismatch"⟩⟩
    else
      match be.r2Sign key R2Method.get with
      | Except.error _ => err500Obj obj
      | Except.ok url =>
        ⟨obj.oid, obj.size, some true, some ⟨none, some ⟨url, some env.URL_EXPIRY⟩⟩, none⟩

/-- `processUploadObject`: idempotent skip on existing object of matching
size, size-mismatch error otherwise, signed upload action when absent;
same catch-all per-object 500. -/
def processUploadObject (env : Env) (be : Backend) (org repo : String)
    (obj : LFSObjectRequest) : LFSObjectResponse :=
  let key := generateObjectKey org repo obj.oid
  match be.r2Head key with
  | Except.error _ => err500Obj obj
  | Except.ok (some storedSize) =>
    if storedSize = obj.size then ⟨obj.oid, obj.size, some true, none, none⟩
    else ⟨obj.oid, obj.size, none, none, some ⟨422, "Object size mismatch"⟩⟩
  | Except.ok none =>
    match be.r2Sign key R2Method.put with
    | Except.error _ => err500Obj obj
    | Except.ok url =>
      ⟨obj.oid, obj.size, some true, some ⟨some ⟨url, some env.URL_EXPIRY⟩, none⟩, none⟩

/-- `const processObject = request.operation === "download" ? ... : ...`. -/
def processObject (env : Env) (be : Backend) (org repo : String)
    (operation : String) (obj : LFSObjectRequest) : LFSObjectResponse :=
  if operation = "download" then processDownloadObject env be org repo obj
  else processUploadObject env be org repo obj

/-- `processBatchRequest`: per-object fan-out preserving order, `basic`
transfer echo, `hash_algo` echoed when truthy. -/
def processBatchRequest (env : Env) (be : Backend) (org repo : String)
    (request : LFSBatchRequest) : LFSBatchResponse :=
  { transfer := some "basic",
    objects := request.objects.map (processObject env be org repo request.operation),
    hash_algo :=
      match request.hash_algo with
      | some h => if h.data.isEmpty then none else some h
      | none => none }

/-! ## src/app.ts -/

def DOT_GIT : List Char := ['.', 'g', 'i', 't']

/-- `repoGit.replace(/\.git$/, "")` on character lists: remove one
trailing `.git` when present. -/
def stripDotGitChars (l : List Char) : List Char :=
  if l.reverse.take 4 = DOT_GIT.reverse then (l.reverse.drop 4).reverse else l

/-- `const repo = repoGit.replace(/\.git$/, "")`. -/
def stripGitSuffix (s : String) : String :=
  String.mk (stripDotGitChars s.data)

/-- The inbound request: the two route parameters, the authorization
header, and the JSON body (`none` when `c.req.json()` would throw). -/
structure AppRequest where
  org : String
  repoGit : String
  authHeader : Option String
  body : Option LFSBatchRequest
deriving DecidableEq

/-- The observable response of the batch handler: status, JSON message,
and the `LFS-Authenticate` / `Retry-After` headers it may set. -/
structure AppResponse where
  status : Nat
  message : Option String
  lfsAuthenticate : Option String
  retryAfterHeaderValue : Option Int
  batch : Option LFSBatchResponse
deriving DecidableEq

/-- Counters of the handler's outbound effects, for the zero-upstream-call
properties: oracle fetches, cache reads and writes, organization checks,
and body-parse attempts. -/
structure Trace where
  oracleCalls : Nat
  cacheGets : Nat
  cachePuts : Nat
  orgChecks : Nat
  bodyParses : Nat
deriving DecidableEq

/-- A plain `lfsJson(c, { message }, status)` response. -/
def mkResponse (status : Nat) (message : String) : AppResponse :=
  { status := status, message := some message, lfsAuthenticate := none,
    retryAfterHeaderValue := none, batch := none }

/-- The `catch` arm of step 3: a `GitHubRateLimitError` becomes 429 with
`Retry-After` from `error.retryAfter ?? (error.resetAt ? error.resetAt - now
: undefined)` (note the JS truthiness of `resetAt`), a `GitHub API error:`
message becomes 502, anything else 500. -/
def oracleFailureResponse (e : GitHubFailure) (now : Int) : AppResponse :=
  match e with
  | GitHubFailure.rateLimited retryAfter resetAt =>
    let ra : Option Int :=
      match retryAfter with
      | some v => some v
      | none =>
        match resetAt with
        | some t => if t = 0 then none else some (t - now)
        | none => none
    { status := 429, message := some "Rate limit exceeded", lfsAuthenticate := none,
      retryAfterHeaderValue := ra, batch := none }
  | GitHubFailure.apiError _ => mkResponse 502 "Upstream service error"
  | GitHubFailure.jsonError => mkResponse 500 "Internal server error"

/-- Steps 4–8 of the handler, after the permission has been resolved
(`org` and the parsed body are the only request data they read):
no-access check, body parse, `validateBatchRequest` (its failure mapped to
status 422 by `app.ts` line 79 regardless of `validation.status`),
operation-permission gate, then `processBatchRequest` under 200. -/
def afterPermission (env : Env) (be : Backend) (org : String)
    (parsedBody : Option LFSBatchRequest) (repo : String)
    (permission : PermissionLevel) (cache : PermCache) (t : Trace) :
    AppResponse × PermCache × Trace :=
  if permission = PermissionLevel.none then
    (mkResponse 403 "Access denied", cache, t)
  else
    match parsedBody with
    | none =>
      (mkResponse 422 "Invalid JSON body", cache, { t with bodyParses := t.bodyParses + 1 })
    | some body =>
      let t := { t with bodyParses := t.bodyParses + 1 }
      let validation := validateBatchRequest body
      if validation.valid = false then
        ({ status := 422, message := validation.error, lfsAuthenticate := none,
           retryAfterHeaderValue := none, batch := none }, cache, t)
      else if hasOperationPermission permission body.operation = false then
        (mkResponse 403 "Insufficient permissions for this operation", cache, t)
      else
        ({ status := 200, message := none, lfsAuthenticate := none,
           retryAfterHeaderValue := none,
           batch := some (processBatchRequest env be org repo body) }, cache, t)

/-- The POST `/:org/:repoGit/info/lfs/objects/batch` handler: strip the
`.git` suffix, extract the token (absence → 401 with the LFS challenge),
validate the organization (failure → 403), resolve the permission through
the cache (`withCache` inlined so the trace can count the KV and oracle
traffic), map oracle failures, then continue with `afterPermission`. -/
def handleBatch (env : Env) (be : Backend) (req : AppRequest) (cache : PermCache) :
    AppResponse × PermCache × Trace :=
  let repo := stripGitSuffix req.repoGit
  match extractToken be.decodeBase64 req.authHeader with
  | none =>
    ({ status := 401, message := some "Authentication required",
       lfsAuthenticate := some "Basic realm=\"Git LFS\"",
       retryAfterHeaderValue := none, batch := none },
     cache, ⟨0, 0, 0, 0, 0⟩)
  | some token =>
    if validateOrganization env req.org = false then
      (mkResponse 403 "Organization not allowed", cache, ⟨0, 0, 0, 1, 0⟩)
    else
      match getCachedPermission be.hashToken cache token req.org repo with
      | some cached => afterPermission env be req.org req.body repo cached cache ⟨0, 1, 0, 1, 0⟩
      | none =>
        match getRepositoryPermission (be.oracle token req.org repo) with
        | Except.error e =>
          (oracleFailureResponse e be.now, cache, ⟨1, 1, 0, 1, 0⟩)
        | Except.ok permission =>
          afterPermission env be req.org req.body repo permission
            (setCachedPermission be.hashToken cache token req.org repo permission)
            ⟨1, 1, 1, 1, 0⟩

/-! ## Shared concrete fixtures -/

/-- A 200 response for a public repository with pull-only permission. -/
def okOracleResponse : OracleResponse :=
  ⟨200, none, none, none, some ⟨false, some ⟨false, false, true⟩⟩⟩

/-- A backend whose store reports every object present with size 1. -/
def testBackend : Backend :=
  { decodeBase64 := fun _ => none,
    hashToken := fun _ => "h",
    oracle := fun _ _ _ => okOracleResponse,
    r2Head := fun _ => Except.ok (some 1),
    r2Sign := fun _ _ => Except.ok "https://signed.example/url",
    now := 1000 }

def testEnv : Env := ⟨"test-org", 600, 300⟩

def validOid : String := String.mk (List.replicate 64 'a')

/-- A batch of 101 otherwise-valid objects. -/
def batch101 : LFSBatchRequest :=
  ⟨"download", none, List.replicate 101 ⟨validOid, 1⟩, none⟩

/-- A one-object batch with an unsupported hash algorithm. -/
def batchBadHash : LFSBatchRequest :=
  ⟨"download", none, [⟨validOid, 1⟩], some "sha512"⟩

/-- A valid one-object download batch. -/
def batchOk : LFSBatchRequest :=
  ⟨"download", none, [⟨validOid, 1⟩], none⟩

/-! ## Claims -/

/-- C1: the validator does assign 413 to an oversized batch and 409 to a
foreign hash algorithm, but the handler (`app.ts` line 79) hard-codes 422
for every validation failure, so a batch of 101 otherwise-valid objects —
and likewise a sha512 batch — is rejected with 422, not with the status
the validator assigned.  The repository's own tests (`app.test.ts`,
"returns 413 for … more than 100 objects") expect 413. -/
theorem batch_too_large_status_bug :
    (validateBatchRequest batch101).valid = false ∧
    (validateBatchRequest batch101).status = some 413 ∧
    (handleBatch testEnv testBackend
      ⟨"test-org", "repo", some "Bearer ghp_abc123", some batch101⟩ []).fst.status = 422 ∧
    (validateBatchRequest batchBadHash).status = some 409 ∧
    (handleBatch testEnv testBackend
      ⟨"test-org", "repo", some "Bearer ghp_abc123", some batchBadHash⟩ []).fst.status = 422 :=
  ⟨by decide, by decide, by decide, by decide, by decide⟩

/-- The request of C2: a syntactically invalid repository name (leading
period) with a valid credential and an allowed organization. -/
def reqBadRepo : AppRequest :=
  ⟨"test-org", ".hidden", some "Bearer ghp_abc123", some batchOk⟩

/-- C2: `validateRepoName` rejects ".hidden", but the handler never calls
it: the request with an invalid repository name proceeds to the permission
oracle (one upstream call) and completes with 200 instead of being
rejected.  The repository's own tests ("returns 400 for invalid repo
name", zero oracle calls) expect the rejection. -/
theorem repo_name_not_validated_bug :
    validateRepoName ".hidden" = false ∧
    (handleBatch testEnv testBackend reqBadRepo []).fst.status = 200 ∧
    (handleBatch testEnv testBackend reqBadRepo []).snd.snd.oracleCalls = 1 :=
  ⟨by decide, by decide, by decide⟩

/-- Any of the three organization failure modes makes
`validateOrganization` false. -/
theorem validateOrganization_eq_false (env : Env) (org : String)
    (h : orgNameMatches org.data = false ∨ MAX_ORG_LENGTH < org.data.length ∨
         (parseAllowedOrgs env.ALLOWED_ORGS).contains org.data = false) :
    validateOrganization env org = false := by
  simp only [validateOrganization]
  split_ifs with h1 h2
  · rfl
  · rfl
  · rcases h with h | h | h
    · rw [h] at h2
      simp at h2
    · exact absurd (Or.inr h) h1
    · exact h

/-- C3: a request whose organization fails the identifier pattern, exceeds
255 characters, or is not an exact member of the allow-list is answered
with the request-level 403 "Organization not allowed", the cache is left
untouched, and the oracle is never invoked. -/
theorem org_not_allowed_rejects_without_oracle
    (env : Env) (be : Backend) (req : AppRequest) (cache : PermCache) (token : String)
    (htoken : extractToken be.decodeBase64 req.authHeader = some token)
    (hbad : orgNameMatches req.org.data = false ∨ MAX_ORG_LENGTH < req.org.data.length ∨
            (parseAllowedOrgs env.ALLOWED_ORGS).contains req.org.data = false) :
    (handleBatch env be req cache).fst = mkResponse 403 "Organization not allowed" ∧
    (handleBatch env be req cache).snd.fst = cache ∧
    (handleBatch env be req cache).snd.snd.oracleCalls = 0 := by
  have hv : validateOrganization env req.org = false :=
    validateOrganization_eq_false env req.org hbad
  simp [handleBatch, htoken, hv]

/-- The request of the C3 witness: an organization with a space fails the
identifier pattern. -/
def reqBadOrg : AppRequest :=
  ⟨"bad org", "repo", some "Bearer ghp_abc123", none⟩

theorem org_not_allowed_rejects_without_oracle_witness :
    (handleBatch testEnv testBackend reqBadOrg []).fst =
      mkResponse 403 "Organization not allowed" ∧
    (handleBatch testEnv testBackend reqBadOrg []).snd.fst = [] ∧
    (handleBatch testEnv testBackend reqBadOrg []).snd.snd.oracleCalls = 0 :=
  org_not_allowed_rejects_without_oracle testEnv testBackend reqBadOrg [] "ghp_abc123"
    (by decide) (Or.inl (by decide))

/-- C4: when the oracle answers 429, or 403 with zero remaining quota, the
handler stores nothing in the permission cache (state unchanged, zero
puts) and returns a request-level 429 — never a 403 denial or a "none"
level — whose `Retry-After` is the explicit retry-after duration for a
429 and the reset timestamp minus the current time for an exhausted-quota
403 (the JS code drops a zero reset timestamp as falsy). -/
theorem rate_limited_propagates_without_cache
    (env : Env) (be : Backend) (req : AppRequest) (cache : PermCache) (token : String)
    (htoken : extractToken be.decodeBase64 req.authHeader = some token)
    (horg : validateOrganization env req.org = true)
    (hmiss : getCachedPermission be.hashToken cache token req.org
               (stripGitSuffix req.repoGit) = none)
    (hrl : (be.oracle token req.org (stripGitSuffix req.repoGit)).status = 429 ∨
           ((be.oracle token req.org (stripGitSuffix req.repoGit)).status = 403 ∧
            (be.oracle token req.org (stripGitSuffix req.repoGit)).rateLimitRemaining =
              some "0")) :
    (handleBatch env be req cache).fst.status = 429 ∧
    (handleBatch env be req cache).snd.fst = cache ∧
    (handleBatch env be req cache).snd.snd.cachePuts = 0 ∧
    ((be.oracle token req.org (stripGitSuffix req.repoGit)).status = 429 →
      (handleBatch env be req cache).fst.retryAfterHeaderValue =
        (be.oracle token req.org (stripGitSuffix req.repoGit)).retryAfterHeader) ∧
    ((be.oracle token req.org (stripGitSuffix req.repoGit)).status = 403 →
      (handleBatch env be req cache).fst.retryAfterHeaderValue =
        (match (be.oracle token req.org (stripGitSuffix req.repoGit)).rateLimitReset with
         | some t => if t = 0 then none else some (t - be.now)
         | none => none)) := by
  rcases hrl with h429 | ⟨h403, hrem⟩
  · have herr : getRepositoryPermission (be.oracle token req.org (stripGitSuffix req.repoGit)) =
        Except.error (GitHubFailure.rateLimited
          (be.oracle token req.org (stripGitSuffix req.repoGit)).retryAfterHeader none) := by
      simp [getRepositoryPermission, h429]
    refine ⟨?_, ?_, ?_, ?_, ?_⟩ <;>
      simp [handleBatch, htoken, horg, hmiss, herr, oracleFailureResponse, h429] <;>
      cases (be.oracle token req.org (stripGitSuffix req.repoGit)).retryAfterHeader <;> rfl
  · have herr : getRepositoryPermission (be.oracle token req.org (stripGitSuffix req.repoGit)) =
        Except.error (GitHubFailure.rateLimited none
          (be.oracle token req.org (stripGitSuffix req.repoGit)).rateLimitReset) := by
      simp [getRepositoryPermission, h403, hrem]
    refine ⟨?_, ?_, ?_, ?_, ?_⟩ <;>
      simp [handleBatch, htoken, horg, hmiss, herr, oracleFailureResponse, h403]

/-- The backend of the C4 witness: the oracle is rate-limited with an
explicit 60-second hint. -/
def rateLimitedBackend : Backend :=
  { testBackend with oracle := fun _ _ _ => ⟨429, some 60, none, none, none⟩ }

theorem rate_limited_propagates_without_cache_witness :
    (handleBatch testEnv rateLimitedBackend reqBadRepo []).fst.status = 429 ∧
    (handleBatch testEnv rateLimitedBackend reqBadRepo []).fst.retryAfterHeaderValue =
      some 60 ∧
    (handleBatch testEnv rateLimitedBackend reqBadRepo []).snd.fst = [] :=
  have h := rate_limited_propagates_without_cache testEnv rateLimitedBackend reqBadRepo []
    "ghp_abc123" (by decide) (by decide) (by decide) (Or.inl (by decide))
  ⟨h.1, h.2.2.2.1 (by decide), h.2.1⟩

/-- C5: a successful oracle response maps the three raw booleans to
admin, else write, else read, else none; a response that omits the
permissions object defaults to read for a public repository and none for
a private one. -/
theorem permission_mapping_and_default
    (perms : GitHubPermissions) (resp : OracleResponse) (data : GitHubRepository)
    (hstatus : resp.status = 200) (hbody : resp.body = some data) :
    (perms.admin = true → mapGitHubPermissions perms = PermissionLevel.admin) ∧
    (perms.admin = false → perms.push = true →
      mapGitHubPermissions perms = PermissionLevel.write) ∧
    (perms.admin = false → perms.push = false → perms.pull = true →
      mapGitHubPermissions perms = PermissionLevel.read) ∧
    (perms.admin = false → perms.push = false → perms.pull = false →
      mapGitHubPermissions perms = PermissionLevel.none) ∧
    (data.permissions = some perms →
      getRepositoryPermission resp = Except.ok (mapGitHubPermissions perms)) ∧
    (data.permissions = none → data.isPrivate = false →
      getRepositoryPermission resp = Except.ok PermissionLevel.read) ∧
    (data.permissions = none → data.isPrivate = true →
      getRepositoryPermission resp = Except.ok PermissionLevel.none) := by
  refine ⟨?_, ?_, ?_, ?_, ?_, ?_, ?_⟩ <;> intros <;>
    simp [mapGitHubPermissions, getRepositoryPermission, hstatus, hbody, *]

theorem permission_mapping_and_default_witness :
    mapGitHubPermissions ⟨false, true, true⟩ = PermissionLevel.write ∧
    getRepositoryPermission ⟨200, none, none, none, some ⟨false, some ⟨false, true, true⟩⟩⟩ =
      Except.ok (mapGitHubPermissions ⟨false, true, true⟩) ∧
    getRepositoryPermission ⟨200, none, none, none, some ⟨true, none⟩⟩ =
      Except.ok PermissionLevel.none :=
  have h1 := permission_mapping_and_default ⟨false, true, true⟩
    ⟨200, none, none, none, some ⟨false, some ⟨false, true, true⟩⟩⟩
    ⟨false, some ⟨false, true, true⟩⟩ (by decide) (by decide)
  have h2 := permission_mapping_and_default ⟨false, true, true⟩
    ⟨200, none, none, none, some ⟨true, none⟩⟩ ⟨true, none⟩ (by decide) (by decide)
  ⟨h1.2.1 (by decide) (by decide), h1.2.2.2.2.1 (by decide), h2.2.2.2.2.2.2 (by decide) (by decide)⟩

/-- The map property of the cache assumed by C6: a put makes later gets
of the same key return the stored level. -/
theorem kvGet_kvPut (cache : PermCache) (key : String) (value : PermissionLevel) :
    kvGet (kvPut cache key value) key = some value := by
  simp [kvGet, kvPut, List.find?]

/-- C6: with the cache behaving as a map, resolving the same
(credential, organization, repository) twice makes exactly one oracle
call across both runs — the first run calls once and stores, the second
returns the stored level with zero calls — and a run that starts on a
cache hit never invokes the oracle. -/
theorem cached_permission_idempotent
    (hashToken : String → String) (oracle : String → String → String → PermissionLevel)
    (token org repo : String) (cache : PermCache) :
    (kvGet cache (generateCacheKey hashToken token org repo) = none →
      withCache hashToken (fun t o r => Except.ok (oracle t o r)) token org repo cache =
        (Except.ok (oracle token org repo,
          kvPut cache (generateCacheKey hashToken token org repo) (oracle token org repo)), 1) ∧
      withCache hashToken (fun t o r => Except.ok (oracle t o r)) token org repo
          (kvPut cache (generateCacheKey hashToken token org repo) (oracle token org repo)) =
        (Except.ok (oracle token org repo,
          kvPut cache (generateCacheKey hashToken token org repo) (oracle token org repo)), 0)) ∧
    (∀ level, kvGet cache (generateCacheKey hashToken token org repo) = some level →
      withCache hashToken (fun t o r => Except.ok (oracle t o r)) token org repo cache =
        (Except.ok (level, cache), 0)) := by
  constructor
  · intro hmiss
    constructor
    · simp [withCache, getCachedPermission, setCachedPermission, hmiss]
    · simp [withCache, getCachedPermission, kvGet_kvPut]
  · intro level hhit
    simp [withCache, getCachedPermission, hhit]

theorem cached_permission_idempotent_witness :
    (withCache (fun _ => "H") (fun t o r => Except.ok (PermissionLevel.write)) "ghp_t" "o" "r" [] =
      (Except.ok (PermissionLevel.write,
        kvPut [] (generateCacheKey (fun _ => "H") "ghp_t" "o" "r") PermissionLevel.write), 1) ∧
     withCache (fun _ => "H") (fun t o r => Except.ok (PermissionLevel.write)) "ghp_t" "o" "r"
        (kvPut [] (generateCacheKey (fun _ => "H") "ghp_t" "o" "r") PermissionLevel.write) =
      (Except.ok (PermissionLevel.write,
        kvPut [] (generateCacheKey (fun _ => "H") "ghp_t" "o" "r") PermissionLevel.write), 0)) :=
  (cached_permission_idempotent (fun _ => "H") (fun _ _ _ => PermissionLevel.write)
    "ghp_t" "o" "r" []).1 (by decide)

/-- The fan-out of `processBatchRequest` is the per-object map. -/
theorem processBatchRequest_objects (env : Env) (be : Backend) (org repo : String)
    (request : LFSBatchRequest) :
    (processBatchRequest env be org repo request).objects =
      request.objects.map (processObject env be org repo request.operation) := rfl

/-- The backend of the C7 witness: the store and the signer always throw. -/
def throwingBackend : Backend :=
  { testBackend with
    r2Head := fun _ => Except.error (),
    r2Sign := fun _ _ => Except.error () }

/-- A two-object download batch. -/
def twoObjBatch : LFSBatchRequest :=
  ⟨"download", none, [⟨validOid, 1⟩, ⟨String.mk (List.replicate 64 'b'), 2⟩], none⟩

/-- C7: the batch response has one result per requested object, each
result is the independent per-object processing of its own descriptor, a
store throw — or a signer throw on either path — for an object becomes
that object's 500 per-object error, and after validation the handler
answers 200 whatever the store and signer do: their failures never become
request-level. -/
theorem store_failure_isolated_per_object
    (env : Env) (be : Backend) (org repo : String) (request : LFSBatchRequest)
    (i : Nat) (obj : LFSObjectRequest)
    (hi : request.objects.get? i = some obj) :
    (processBatchRequest env be org repo request).objects.length =
      request.objects.length ∧
    (∀ j o, request.objects.get? j = some o →
      (processBatchRequest env be org repo request).objects.get? j =
        some (processObject env be org repo request.operation o)) ∧
    (be.r2Head (generateObjectKey org repo obj.oid) = Except.error () →
      (processBatchRequest env be org repo request).objects.get? i =
        some (err500Obj obj)) ∧
    (request.operation = "download" →
      be.r2Head (generateObjectKey org repo obj.oid) = Except.ok (some obj.size) →
      be.r2Sign (generateObjectKey org repo obj.oid) R2Method.get = Except.error () →
      (processBatchRequest env be org repo request).objects.get? i =
        some (err500Obj obj)) ∧
    (request.operation ≠ "download" →
      be.r2Head (generateObjectKey org repo obj.oid) = Except.ok none →
      be.r2Sign (generateObjectKey org repo obj.oid) R2Method.put = Except.error () →
      (processBatchRequest env be org repo request).objects.get? i =
        some (err500Obj obj)) ∧
    (∀ (p : PermissionLevel) (cache : PermCache) (t : Trace) (o r : String),
      p ≠ PermissionLevel.none →
      (validateBatchRequest request).valid = true →
      hasOperationPermission p request.operation = true →
      (afterPermission env be o (some request) r p cache t).fst.status = 200) := by
  refine ⟨?_, ?_, ?_, ?_, ?_, ?_⟩
  · simp [processBatchRequest]
  · intro j o hj
    rw [processBatchRequest_objects, List.get?_map, hj]
    rfl
  · intro hthrow
    rw [processBatchRequest_objects, List.get?_map, hi]
    by_cases hop : request.operation = "download" <;>
      simp [processObject, processDownloadObject, processUploadObject, hthrow, hop]
  · intro hop hhead hsign
    rw [processBatchRequest_objects, List.get?_map, hi]
    simp [processObject, hop, processDownloadObject, hhead, hsign]
  · intro hop hhead hsign
    rw [processBatchRequest_objects, List.get?_map, hi]
    simp [processObject, hop, processUploadObject, hhead, hsign]
  · intro p cache t o r hp hval hop
    simp [afterPermission, hp, hval, hop]

theorem store_failure_isolated_per_object_witness :
    (processBatchRequest testEnv throwingBackend "test-org" "repo" twoObjBatch).objects.get? 0 =
      some (err500Obj ⟨validOid, 1⟩) ∧
    (processBatchRequest testEnv throwingBackend "test-org" "repo" twoObjBatch).objects.length =
      twoObjBatch.objects.length ∧
    (afterPermission testEnv throwingBackend "test-org" (some twoObjBatch) "repo"
      PermissionLevel.read [] ⟨1, 1, 1, 1, 0⟩).fst.status = 200 :=
  have h := store_failure_isolated_per_object testEnv throwingBackend "test-org" "repo"
    twoObjBatch 0 ⟨validOid, 1⟩ (by decide)
  ⟨h.2.2.1 rfl, h.1,
    h.2.2.2.2.2 PermissionLevel.read [] ⟨1, 1, 1, 1, 0⟩ "test-org" "repo"
      (by decide) (by decide) (by decide)⟩

/-- C8: the download path per object — store says absent: error 404 and
no action; present with a different stored size: error 422 and no action;
present with the requested size: a download action whose `expires_in` is
the configured `URL_EXPIRY`, and no error. -/
theorem download_object_result_cases
    (env : Env) (be : Backend) (org repo : String) (obj : LFSObjectRequest) :
    (be.r2Head (generateObjectKey org repo obj.oid) = Except.ok none →
      processDownloadObject env be org repo obj =
        ⟨obj.oid, obj.size, none, none, some ⟨404, "Object not found"⟩⟩) ∧
    (∀ storedSize, be.r2Head (generateObjectKey org repo obj.oid) = Except.ok (some storedSize) →
      storedSize ≠ obj.size →
      processDownloadObject env be org repo obj =
        ⟨obj.oid, obj.size, none, none, some ⟨422, "Object size mismatch"⟩⟩) ∧
    (∀ url, be.r2Head (generateObjectKey org repo obj.oid) = Except.ok (some obj.size) →
      be.r2Sign (generateObjectKey org repo obj.oid) R2Method.get = Except.ok url →
      processDownloadObject env be org repo obj =
        ⟨obj.oid, obj.size, some true,
          some ⟨none, some ⟨url, some env.URL_EXPIRY⟩⟩, none⟩) := by
  refine ⟨?_, ?_, ?_⟩
  · intro hhead
    simp [processDownloadObject, hhead]
  · intro storedSize hhead hne
    simp [processDownloadObject, hhead, hne]
  · intro url hhead hsign
    simp [processDownloadObject, hhead, hsign]

/-- The backend of the C8 witness absent case. -/
def absentBackend : Backend :=
  { testBackend with r2Head := fun _ => Except.ok none }

/-- The backend of the C8 witness size-mismatch case. -/
def mismatchBackend : Backend :=
  { testBackend with r2Head := fun _ => Except.ok (some 7) }

theorem download_object_result_cases_witness :
    processDownloadObject testEnv absentBackend "test-org" "repo" ⟨validOid, 1⟩ =
      ⟨validOid, 1, none, none, some ⟨404, "Object not found"⟩⟩ ∧
    processDownloadObject testEnv mismatchBackend "test-org" "repo" ⟨validOid, 1⟩ =
      ⟨validOid, 1, none, none, some ⟨422, "Object size mismatch"⟩⟩ ∧
    processDownloadObject testEnv testBackend "test-org" "repo" ⟨validOid, 1⟩ =
      ⟨validOid, 1, some true,
        some ⟨none, some ⟨"https://signed.example/url", some 600⟩⟩, none⟩ :=
  ⟨(download_object_result_cases testEnv absentBackend "test-org" "repo" ⟨validOid, 1⟩).1
      rfl,
   (download_object_result_cases testEnv mismatchBackend "test-org" "repo" ⟨validOid, 1⟩).2.1
      7 rfl (by decide),
   (download_object_result_cases testEnv testBackend "test-org" "repo" ⟨validOid, 1⟩).2.2
      "https://signed.example/url" rfl rfl⟩

/-- C9: token extraction is total and absence is terminal — a basic-auth
payload the base64 decoder rejects, a decoded pair without a colon, an
empty token value, and a token failing shape validation (over-long, with
an unrecognized prefix, or with a character outside the token class after
the prefix) all make `extractToken` return `none`; and on `none` the
handler answers 401 with the `LFS-Authenticate` challenge, leaving the
cache untouched with zero organization checks, cache accesses, oracle
calls and body parses. -/
theorem missing_credential_terminal :
    (∀ (decode : String → Option String) (h : String),
      ("bearer ".data).isPrefixOf (h.data.map Char.toLower) = false →
      ("basic ".data).isPrefixOf (h.data.map Char.toLower) = true →
      decode (String.mk (h.data.drop 6)) = none →
      extractToken decode (some h) = none) ∧
    (∀ (decode : String → Option String) (h decoded : String),
      ("bearer ".data).isPrefixOf (h.data.map Char.toLower) = false →
      ("basic ".data).isPrefixOf (h.data.map Char.toLower) = true →
      decode (String.mk (h.data.drop 6)) = some decoded →
      afterFirstColon decoded.data = none →
      extractToken decode (some h) = none) ∧
    (∀ (decode : String → Option String) (h decoded : String),
      ("bearer ".data).isPrefixOf (h.data.map Char.toLower) = false →
      ("basic ".data).isPrefixOf (h.data.map Char.toLower) = true →
      decode (String.mk (h.data.drop 6)) = some decoded →
      afterFirstColon decoded.data = some [] →
      extractToken decode (some h) = none) ∧
    (∀ (decode : String → Option String) (header : Option String) (parsed : ParsedAuth),
      parseAuthHeader decode header = some parsed →
      validateTokenFormat parsed.token = false →
      extractToken decode header = none) ∧
    (∀ token : String, MAX_TOKEN_LENGTH < token.data.length →
      validateTokenFormat token = false) ∧
    (∀ token : String,
      VALID_PREFIXES.find? (fun p => p.isPrefixOf token.data) = none →
      validateTokenFormat token = false) ∧
    (∀ (token : String) (p : List Char),
      VALID_PREFIXES.find? (fun q => q.isPrefixOf token.data) = some p →
      (token.data.drop p.length).all isTokenChar = false →
      validateTokenFormat token = false) ∧
    (∀ (env : Env) (be : Backend) (req : AppRequest) (cache : PermCache),
      extractToken be.decodeBase64 req.authHeader = none →
      handleBatch env be req cache =
        ({ status := 401, message := some "Authentication required",
           lfsAuthenticate := some "Basic realm=\"Git LFS\"",
           retryAfterHeaderValue := none, batch := none }, cache, ⟨0, 0, 0, 0, 0⟩)) := by
  refine ⟨?_, ?_, ?_, ?_, ?_, ?_, ?_, ?_⟩
  · intro decode h hbear hbasic hdec
    simp [extractToken, parseAuthHeader, hbear, hbasic, hdec]
  · intro decode h decoded hbear hbasic hdec hcol
    simp [extractToken, parseAuthHeader, hbear, hbasic, hdec, hcol]
  · intro decode h decoded hbear hbasic hdec hcol
    have hemp : validateTokenFormat "" = false := by decide
    simp [extractToken, parseAuthHeader, hbear, hbasic, hdec, hcol, hemp]
    by_cases h1 : h.data = []
    · simp [h1]
    · by_cases h2 : h.length ≤ 6
      · simp [h1, h2]
      · simp [h1, h2, hemp]
  · intro decode header parsed hparse hshape
    simp [extractToken, hparse, hshape]
  · intro token hlen
    simp only [validateTokenFormat]
    rw [if_pos (Or.inr hlen)]
  · intro token hfind
    by_cases hc : token.data = [] ∨ MAX_TOKEN_LENGTH < token.data.length
    · simp only [validateTokenFormat]
      rw [if_pos hc]
    · simp only [validateTokenFormat]
      rw [if_neg hc, hfind]
  · intro token p hfind hall
    by_cases hc : token.data = [] ∨ MAX_TOKEN_LENGTH < token.data.length
    · simp only [validateTokenFormat]
      rw [if_pos hc]
    · simp only [validateTokenFormat]
      rw [if_neg hc, hfind]
      by_cases hre : (token.data.drop p.length).isEmpty = true
      · simp [hre]
      · simp [hre, hall]
  · intro env be req cache hnone
    simp [handleBatch, hnone]

set_option maxRecDepth 8000 in
theorem missing_credential_terminal_witness :
    extractToken (fun _ => none) (some "Basic ####") = none ∧
    extractToken (fun _ => some "useronly") (some "Basic dXNlcm9ubHk=") = none ∧
    extractToken (fun _ => some "user:") (some "Basic dXNlcjo=") = none ∧
    extractToken (fun _ => none) (some "Bearer bad token") = none ∧
    validateTokenFormat (String.mk (List.replicate 1001 'a')) = false ∧
    validateTokenFormat "invalid_token123" = false ∧
    validateTokenFormat "ghp_abc!" = false ∧
    handleBatch testEnv testBackend ⟨"test-org", "repo", none, none⟩ [] =
      ({ status := 401, message := some "Authentication required",
         lfsAuthenticate := some "Basic realm=\"Git LFS\"",
         retryAfterHeaderValue := none, batch := none }, [], ⟨0, 0, 0, 0, 0⟩) :=
  ⟨missing_credential_terminal.1 (fun _ => none) "Basic ####"
      (by decide) (by decide) rfl,
   missing_credential_terminal.2.1 (fun _ => some "useronly") "Basic dXNlcm9ubHk=" "useronly"
      (by decide) (by decide) rfl (by decide),
   missing_credential_terminal.2.2.1 (fun _ => some "user:") "Basic dXNlcjo=" "user:"
      (by decide) (by decide) rfl (by decide),
   missing_credential_terminal.2.2.2.1 (fun _ => none) (some "Bearer bad token")
      ⟨"bearer", "bad token"⟩ (by decide) (by decide),
   missing_credential_terminal.2.2.2.2.1 (String.mk (List.replicate 1001 'a')) (by decide),
   missing_credential_terminal.2.2.2.2.2.1 "invalid_token123" (by decide),
   missing_credential_terminal.2.2.2.2.2.2.1 "ghp_abc!" "ghp_".data (by decide) (by decide),
   missing_credential_terminal.2.2.2.2.2.2.2 testEnv testBackend
      ⟨"test-org", "repo", none, none⟩ [] rfl⟩

/-- Stripping one trailing `.git` from a name that carries it. -/
theorem stripDotGitChars_append (l : List Char) :
    stripDotGitChars (l ++ DOT_GIT) = l := by
  have h4 : (4 : Nat) = DOT_GIT.reverse.length := by decide
  simp only [stripDotGitChars, List.reverse_append]
  rw [if_pos]
  · rw [h4, List.drop_left, List.reverse_reverse]
  · rw [h4, List.take_left]

/-- A name without the `.git` suffix is left unchanged. -/
theorem stripDotGitChars_eq_self (l : List Char) (h : l.reverse.take 4 ≠ DOT_GIT.reverse) :
    stripDotGitChars l = l := by
  simp [stripDotGitChars, h]

/-- `stripGitSuffix` identifies `r ++ ".git"` with `r` for names not
already ending in `.git`. -/
theorem stripGitSuffix_append (r : String) (h : r.data.reverse.take 4 ≠ DOT_GIT.reverse) :
    stripGitSuffix (r ++ ".git") = stripGitSuffix r := by
  have hd : (r ++ ".git").data = r.data ++ DOT_GIT := String.data_append r ".git"
  simp only [stripGitSuffix, hd, stripDotGitChars_append, stripDotGitChars_eq_self r.data h]

/-- C10: the handler strips one trailing `.git` from the repository path
segment before any processing, so requests addressed to `r` and to
`r ++ ".git"` (for a name not itself ending in `.git`) derive the same
permission cache key, the same storage object keys, and the same
response, cache state and trace. -/
theorem trailing_git_suffix_equivalence
    (env : Env) (be : Backend) (req : AppRequest) (cache : PermCache) (r : String)
    (h : r.data.reverse.take 4 ≠ DOT_GIT.reverse) :
    stripGitSuffix (r ++ ".git") = stripGitSuffix r ∧
    (∀ (hashToken : String → String) (token : String),
      generateCacheKey hashToken token req.org (stripGitSuffix (r ++ ".git")) =
        generateCacheKey hashToken token req.org (stripGitSuffix r)) ∧
    (∀ oid, generateObjectKey req.org (stripGitSuffix (r ++ ".git")) oid =
      generateObjectKey req.org (stripGitSuffix r) oid) ∧
    handleBatch env be { req with repoGit := r ++ ".git" } cache =
      handleBatch env be { req with repoGit := r } cache := by
  have hs := stripGitSuffix_append r h
  refine ⟨hs, fun hashToken token => by rw [hs], fun oid => by rw [hs], ?_⟩
  cases req with
  | mk org repoGit authHeader body =>
    simp only [handleBatch, hs]

theorem trailing_git_suffix_equivalence_witness :
    stripGitSuffix ("repo" ++ ".git") = stripGitSuffix "repo" ∧
    handleBatch testEnv testBackend
        ⟨"test-org", "repo" ++ ".git", some "Bearer ghp_abc123", some batchOk⟩ [] =
      handleBatch testEnv testBackend
        ⟨"test-org", "repo", some "Bearer ghp_abc123", some batchOk⟩ [] :=
  have h := trailing_git_suffix_equivalence testEnv testBackend
    ⟨"test-org", "ignored", some "Bearer ghp_abc123", some batchOk⟩ [] "repo" (by decide)
  ⟨h.1, h.2.2.2⟩

end GitLFSflare
